import Mathlib

/-!
# url-shortener: the HTTP controller (`api/controller/record.go`)

A shallow embedding of the eight request handlers of the controller and of the
three collaborators they talk to:

* the request side of `gin.Context` (path parameters, query string, JSON binding),
* the response side of `gin.Context` (every `c.JSON(status, body)` call is
  appended to a list of writes, in order),
* the datastore `h.ds`, an interface whose operations are passed the store
  explicitly and hand back the new store; every call the handler makes is
  appended to a call log.

Go returns `(value, err)` pairs; `err == nil` becomes `none`.  The context that
every datastore operation receives as its first argument is left out: the
operations are functions of the store and of their other arguments.  The handlers
compare an error against the sentinels of package `data` with `switch err`,
that is by identity, so an error value is its identity class together with the
text of its `Error()` method.
-/

namespace UrlShortener

/-! ## Package `data` (declarations consumed by the controller) -/

/-- Modelled from the spec: package `data` is not part of the controller file.
The identity of an error value: one of the five sentinels the controller
switches on, or any other error (two other errors are told apart by `tag`). -/
inductive ErrIdent where
  | ErrInvalidRecord
  | ErrUnavailableShort
  | ErrIDNotFound
  | ErrShortNotFound
  | ErrFullNotFound
  | other (tag : Nat)
  deriving DecidableEq, Repr

/-- A Go `error` value: which error it is and what its `Error()` method returns. -/
structure GoError where
  ident : ErrIdent
  Error : String
  deriving DecidableEq, Repr

/-- Modelled from the spec: `data.Record`, declared in package `data`, with the
fields the data model lists (`ID`, `Short`, `Full`, `created_at`). -/
structure Record where
  ID : String
  Short : String
  Full : String
  CreatedAt : Int
  deriving DecidableEq, Repr

/-- Modelled from the spec: `data.PageCfg`, declared in package `data`:
`{Page int, Pagin int, Sort string}` (the field `Sort` is written `SortKey`,
`Sort` being a reserved word). -/
structure PageCfg where
  Page : Int
  Pagin : Int
  SortKey : String
  deriving DecidableEq, Repr

/-- Modelled from the spec: the datastore interface held in `h.ds`, declared
outside the controller file.  A `*Record` result is `Option Record` (the pointer
may be nil); `σ` is the state of the store, threaded through every call. -/
structure Datastore (σ : Type) where
  AddRecord : σ → Record → (Option Record × Option GoError) × σ
  UpdateRecord : σ → String → Record → (Option Record × Option GoError) × σ
  DeleteRecord : σ → String → (String × Option GoError) × σ
  GetRecordByID : σ → String → (Option Record × Option GoError) × σ
  GetRecordByShort : σ → String → (Option Record × Option GoError) × σ
  GetRecordByFull : σ → String → (Option Record × Option GoError) × σ
  GetRecordsLen : σ → (Int × Option GoError) × σ
  GetAllRecords : σ → PageCfg → (List (Option Record) × PageCfg × Option GoError) × σ

/-! ## `net/http` status codes -/

/-- Constant `http.StatusOK`. -/
def StatusOK : Nat := 200

/-- Constant `http.StatusBadRequest`. -/
def StatusBadRequest : Nat := 400

/-- Constant `http.StatusNotFound`. -/
def StatusNotFound : Nat := 404

/-- Constant `http.StatusConflict`. -/
def StatusConflict : Nat := 409

/-- Constant `http.StatusInternalServerError`. -/
def StatusInternalServerError : Nat := 500

/-! ## `strconv.Atoi` -/

/-- Size of Go's `int` in bits (`strconv.IntSize` on a 64-bit platform). -/
def intSize : Nat := 64

/-- Value of a decimal digit byte; `none` for every other character. -/
def digitVal (ch : Char) : Option Nat :=
  if 48 ≤ ch.toNat ∧ ch.toNat ≤ 57 then some (ch.toNat - 48) else none

/-- The digit loop of `strconv`: accumulate base-10 digits, fail on the first
character that is not one. -/
def parseDigits : List Char → Nat → Option Nat
  | [], n => some n
  | ch :: cs, n =>
    match digitVal ch with
    | none => none
    | some d => parseDigits cs (n * 10 + d)

/-- The unsigned part of `strconv.ParseInt`: at least one digit, digits only. -/
def parseUnsigned (cs : List Char) : Option Nat :=
  match cs with
  | [] => none
  | _ :: _ => parseDigits cs 0

/-- Go's `strconv.Atoi` on a string: an optional sign `+` or `-`, then one or more
decimal digits, the value lying in the range of `int`; `none` when Atoi returns
a non-nil error (syntax or range).  The number Atoi returns next to an error is
dropped: the controller overwrites it.  A byte outside ASCII is never a digit,
so reading the string character by character rejects what Go rejects byte by
byte. -/
def Atoi (s : String) : Option Int :=
  match s.data with
  | [] => none
  | ch :: cs =>
    if ch = '-' then
      match parseUnsigned cs with
      | none => none
      | some un => if un > 2 ^ (intSize - 1) then none else some (-(un : Int))
    else if ch = '+' then
      match parseUnsigned cs with
      | none => none
      | some un => if un ≥ 2 ^ (intSize - 1) then none else some (un : Int)
    else
      match parseUnsigned (ch :: cs) with
      | none => none
      | some un => if un ≥ 2 ^ (intSize - 1) then none else some (un : Int)

/-! ## `gin.Context` and the handler -/

/-- The JSON value handed to `c.JSON`: one constructor per shape the controller
sends (`gin.H` with the key named, or a `*Record`). -/
inductive Body where
  | error (msg : String)
  | record (r : Option Record)
  | id (did : String)
  | len (l : Int)
  | page (page_config : PageCfg) (result : List (Option Record))
  deriving DecidableEq, Repr

/-- One call `c.JSON(status, body)`. -/
structure Response where
  status : Nat
  body : Body
  deriving DecidableEq, Repr

/-- One call of a datastore operation, with the arguments it was given. -/
inductive Call where
  | AddRecord (r : Record)
  | UpdateRecord (id : String) (r : Record)
  | DeleteRecord (id : String)
  | GetRecordByID (id : String)
  | GetRecordByShort (short : String)
  | GetRecordByFull (full : String)
  | GetRecordsLen
  | GetAllRecords (pcfg : PageCfg)
  deriving DecidableEq, Repr

/-- The request side of `gin.Context`: `c.Param`, `c.GetQuery` (`none` when the
key is absent from the query string) and the outcome of `c.ShouldBindJSON`,
either the parse error or the bound record. -/
structure Context where
  Param : String → String
  GetQuery : String → Option String
  ShouldBindJSON : Except GoError Record

/-- The `c.DefaultQuery(key, defaultValue)` of gin: the value of the key when it
is present in the query string, the default otherwise. -/
def Context.DefaultQuery (c : Context) (key defaultValue : String) : String :=
  match c.GetQuery key with
  | some v => v
  | none => defaultValue

/-- What a handler run changes: the store behind `h.ds`, the datastore calls
made so far and the `c.JSON` writes made so far (both oldest first). -/
structure Exec (σ : Type) where
  store : σ
  calls : List Call
  written : List Response

/-- The `c.JSON(status, body)` of gin: append one write. -/
def Exec.JSON {σ : Type} (x : Exec σ) (status : Nat) (body : Body) : Exec σ :=
  { x with written := x.written ++ [⟨status, body⟩] }

/-- Run one datastore operation on the current store, log the call. -/
def Exec.invoke {σ α : Type} (x : Exec σ) (call : Call) (op : σ → α × σ) : α × Exec σ :=
  ((op x.store).1, { x with store := (op x.store).2, calls := x.calls ++ [call] })

/-- The controller's `handler` struct: it holds the datastore. -/
structure handler (σ : Type) where
  ds : Datastore σ

variable {σ : Type}

/-- Handler `func (h *handler) AddRecord(c *gin.Context)`. -/
def handler.AddRecord (h : handler σ) (c : Context) (x : Exec σ) : Exec σ :=
  -- bind record
  match c.ShouldBindJSON with
  | .error err => x.JSON StatusBadRequest (.error err.Error)
  | .ok newr =>
    -- add record
    match x.invoke (.AddRecord newr) (fun s => h.ds.AddRecord s newr) with
    | ((_, some err), x) =>
      match err.ident with
      | .ErrInvalidRecord => x.JSON StatusBadRequest (.error err.Error)
      | .ErrUnavailableShort => x.JSON StatusConflict (.error err.Error)
      | _ => x.JSON StatusInternalServerError (.error err.Error)
    | ((r, none), x) =>
      -- record successfully added
      x.JSON StatusOK (.record r)

/-- Handler `func (h *handler) UpdateRecord(c *gin.Context)`. -/
def handler.UpdateRecord (h : handler σ) (c : Context) (x : Exec σ) : Exec σ :=
  -- get record's ID
  let id := c.Param "record_id"
  -- bind record
  match c.ShouldBindJSON with
  | .error err => x.JSON StatusBadRequest (.error err.Error)
  | .ok newr =>
    -- update record
    match x.invoke (.UpdateRecord id newr) (fun s => h.ds.UpdateRecord s id newr) with
    | ((_, some err), x) =>
      match err.ident with
      | .ErrInvalidRecord => x.JSON StatusBadRequest (.error err.Error)
      | .ErrUnavailableShort => x.JSON StatusConflict (.error err.Error)
      | .ErrIDNotFound => x.JSON StatusNotFound (.error err.Error)
      | _ => x.JSON StatusInternalServerError (.error err.Error)
    | ((r, none), x) =>
      -- record successfully updated
      x.JSON StatusOK (.record r)

/-- Handler `func (h *handler) DeleteRecord(c *gin.Context)`. -/
def handler.DeleteRecord (h : handler σ) (c : Context) (x : Exec σ) : Exec σ :=
  -- get record's ID
  let id := c.Param "record_id"
  -- delete record
  match x.invoke (.DeleteRecord id) (fun s => h.ds.DeleteRecord s id) with
  | ((_, some err), x) =>
    match err.ident with
    | .ErrIDNotFound => x.JSON StatusNotFound (.error err.Error)
    | _ => x.JSON StatusInternalServerError (.error err.Error)
  | ((did, none), x) =>
    -- record successfully deleted
    x.JSON StatusOK (.id did)

/-- Handler `func (h *handler) GetRecordByID(c *gin.Context)`. -/
def handler.GetRecordByID (h : handler σ) (c : Context) (x : Exec σ) : Exec σ :=
  -- get record's ID
  let id := c.Param "record_id"
  -- get record
  match x.invoke (.GetRecordByID id) (fun s => h.ds.GetRecordByID s id) with
  | ((_, some err), x) =>
    match err.ident with
    | .ErrIDNotFound => x.JSON StatusNotFound (.error err.Error)
    | _ => x.JSON StatusInternalServerError (.error err.Error)
  | ((r, none), x) =>
    -- record successfully retrieved
    x.JSON StatusOK (.record r)

/-- Handler `func (h *handler) GetRecordByShort(c *gin.Context)`. -/
def handler.GetRecordByShort (h : handler σ) (c : Context) (x : Exec σ) : Exec σ :=
  -- get record's Short
  let short := c.Param "record_short"
  -- get record
  match x.invoke (.GetRecordByShort short) (fun s => h.ds.GetRecordByShort s short) with
  | ((_, some err), x) =>
    match err.ident with
    | .ErrShortNotFound => x.JSON StatusNotFound (.error err.Error)
    | _ => x.JSON StatusInternalServerError (.error err.Error)
  | ((r, none), x) =>
    -- record successfully retrieved
    x.JSON StatusOK (.record r)

/-- Handler `func (h *handler) GetRecordByFull(c *gin.Context)`. -/
def handler.GetRecordByFull (h : handler σ) (c : Context) (x : Exec σ) : Exec σ :=
  -- get record's Full
  let full := c.Param "record_full"
  -- get record
  match x.invoke (.GetRecordByFull full) (fun s => h.ds.GetRecordByFull s full) with
  | ((_, some err), x) =>
    match err.ident with
    | .ErrFullNotFound => x.JSON StatusNotFound (.error err.Error)
    | _ => x.JSON StatusInternalServerError (.error err.Error)
  | ((r, none), x) =>
    -- record successfully retrieved
    x.JSON StatusOK (.record r)

/-- Handler `func (h *handler) GetRecordsLen(c *gin.Context)`: the error branch has no
`return`, so the run continues with the second `c.JSON`. -/
def handler.GetRecordsLen (h : handler σ) (_c : Context) (x : Exec σ) : Exec σ :=
  -- get length
  match x.invoke .GetRecordsLen (fun s => h.ds.GetRecordsLen s) with
  | ((l, err), x) =>
    let x :=
      match err with
      | some err => x.JSON StatusInternalServerError (.error err.Error)
      | none => x
    -- records length successfully retrieved
    x.JSON StatusOK (.len l)

/-- Lines 234-254 of `GetAllRecords`: read `page`, `pagin` and `sort` from the
query string, convert the first two, build the `PageCfg`. -/
def handler.pageCfgOf (c : Context) : PageCfg :=
  -- get pagination data
  let pageStr := c.DefaultQuery "page" "1"
  let paginStr := c.DefaultQuery "pagin" "100"
  let sort := c.DefaultQuery "sort" "created_at"
  -- convert page and pagin
  let page :=
    match Atoi pageStr with
    | some n => n
    | none => 1
  let pagin :=
    match Atoi paginStr with
    | some n => n
    | none => 30
  -- declare PageCfg
  { Page := page, Pagin := pagin, SortKey := sort }

/-- Handler `func (h *handler) GetAllRecords(c *gin.Context)`: as in `GetRecordsLen`, the
error branch has no `return`. -/
def handler.GetAllRecords (h : handler σ) (c : Context) (x : Exec σ) : Exec σ :=
  let pcfg := handler.pageCfgOf c
  -- get records
  match x.invoke (.GetAllRecords pcfg) (fun s => h.ds.GetAllRecords s pcfg) with
  | ((rs, pgcfgG, err), x) =>
    let x :=
      match err with
      | some err => x.JSON StatusInternalServerError (.error err.Error)
      | none => x
    -- records successfully retrieved
    x.JSON StatusOK (.page pgcfgG rs)

/-! ## An in-memory datastore

A small implementation of the datastore interface, used to run the handlers on
concrete requests.  It keeps the records in a list and can be put in a faulty
state in which every operation fails with the stored error. -/

/-- State of the in-memory datastore. -/
structure Mem where
  records : List Record
  fault : Option GoError
  deriving DecidableEq, Repr

/-- The invalid-record sentinel as the in-memory datastore returns it (the text
is an example; the controller only forwards it). -/
def Mem.ErrInvalidRecord : GoError := ⟨.ErrInvalidRecord, "invalid record"⟩

/-- The unavailable-short sentinel as the in-memory datastore returns it. -/
def Mem.ErrUnavailableShort : GoError := ⟨.ErrUnavailableShort, "short is not available"⟩

/-- The id-not-found sentinel as the in-memory datastore returns it. -/
def Mem.ErrIDNotFound : GoError := ⟨.ErrIDNotFound, "id not found"⟩

/-- The short-not-found sentinel as the in-memory datastore returns it. -/
def Mem.ErrShortNotFound : GoError := ⟨.ErrShortNotFound, "short not found"⟩

/-- The full-not-found sentinel as the in-memory datastore returns it. -/
def Mem.ErrFullNotFound : GoError := ⟨.ErrFullNotFound, "full not found"⟩

/-- Look a record up by a key. -/
def Mem.lookup (m : Mem) (key : Record → String) (v : String) (notFound : GoError) :
    (Option Record × Option GoError) × Mem :=
  match m.fault with
  | some f => ((none, some f), m)
  | none =>
    match m.records.find? (fun q => key q == v) with
    | some r => ((some r, none), m)
    | none => ((none, some notFound), m)

/-- The in-memory datastore. -/
def memDs : Datastore Mem where
  AddRecord m r :=
    match m.fault with
    | some f => ((none, some f), m)
    | none =>
      if r.Short = "" ∨ r.Full = "" then ((none, some Mem.ErrInvalidRecord), m)
      else if m.records.any (fun q => q.Short == r.Short) then
        ((none, some Mem.ErrUnavailableShort), m)
      else
        ((some { r with ID := r.Short }, none),
          { m with records := m.records ++ [{ r with ID := r.Short }] })
  UpdateRecord m id r :=
    match m.fault with
    | some f => ((none, some f), m)
    | none =>
      if r.Short = "" ∨ r.Full = "" then ((none, some Mem.ErrInvalidRecord), m)
      else if !(m.records.any (fun q => q.ID == id)) then
        ((none, some Mem.ErrIDNotFound), m)
      else if m.records.any (fun q => q.Short == r.Short && q.ID != id) then
        ((none, some Mem.ErrUnavailableShort), m)
      else
        let rs := m.records.map (fun q => if q.ID = id then { r with ID := id } else q)
        ((some { r with ID := id }, none), { m with records := rs })
  DeleteRecord m id :=
    match m.fault with
    | some f => (("", some f), m)
    | none =>
      if m.records.any (fun q => q.ID == id) then
        ((id, none), { m with records := m.records.filter (fun q => q.ID != id) })
      else (("", some Mem.ErrIDNotFound), m)
  GetRecordByID m id := m.lookup Record.ID id Mem.ErrIDNotFound
  GetRecordByShort m short := m.lookup Record.Short short Mem.ErrShortNotFound
  GetRecordByFull m full := m.lookup Record.Full full Mem.ErrFullNotFound
  GetRecordsLen m :=
    match m.fault with
    | some f => ((0, some f), m)
    | none => ((m.records.length, none), m)
  GetAllRecords m pcfg :=
    match m.fault with
    | some f => (([], pcfg, some f), m)
    | none =>
      let pg : PageCfg :=
        { pcfg with Page := if pcfg.Page < 1 then 1 else pcfg.Page,
                    Pagin := if pcfg.Pagin < 1 then 30 else pcfg.Pagin }
      (((m.records.drop ((pg.Page - 1) * pg.Pagin).toNat).take pg.Pagin.toNat |>.map some,
        pg, none), m)

/-- The handler over the in-memory datastore. -/
def memHandler : handler Mem := ⟨memDs⟩

/-- A request with no path parameter, no query string and the given body. -/
def plainRequest (body : Except GoError Record) : Context :=
  { Param := fun _ => "", GetQuery := fun _ => none, ShouldBindJSON := body }

/-- A request whose path parameters all carry `v`. -/
def paramRequest (v : String) : Context :=
  { Param := fun _ => v, GetQuery := fun _ => none, ShouldBindJSON := .error ⟨.other 0, "EOF"⟩ }

/-- A request with the given `page`, `pagin` and `sort` query values. -/
def queryRequest (page pagin sort : Option String) : Context :=
  { Param := fun _ => "",
    GetQuery := fun k =>
      if k = "page" then page else if k = "pagin" then pagin
      else if k = "sort" then sort else none,
    ShouldBindJSON := .error ⟨.other 0, "EOF"⟩ }

/-- The record of the example `POST {"short":"abc","full":"https://example.com"}`. -/
def exampleRecord : Record :=
  { ID := "", Short := "abc", Full := "https://example.com", CreatedAt := 0 }

/-- The example record as the in-memory datastore stores it. -/
def storedRecord : Record := { exampleRecord with ID := "abc" }

/-- The in-memory store holding the example record and nothing else. -/
def oneStore : Mem := ⟨[storedRecord], none⟩

/-- A fresh run over the given store: no call made, nothing written. -/
def Exec.start {σ : Type} (s : σ) : Exec σ := { store := s, calls := [], written := [] }

/-- A datastore that answers every lookup with ErrShortNotFound, whatever the
field looked up; all its other operations are those of the in-memory store. -/
def confusedDs : Datastore Mem :=
  { memDs with
    GetRecordByID := fun m _ => ((none, some Mem.ErrShortNotFound), m)
    GetRecordByShort := fun m _ => ((none, some Mem.ErrShortNotFound), m)
    GetRecordByFull := fun m _ => ((none, some Mem.ErrShortNotFound), m) }

/-- The store that holds the example record and has lost its connection. -/
def faultyStore : Mem := ⟨[storedRecord], some ⟨.other 3, "connection lost"⟩⟩

/-! ## Auxiliary lemmas -/

/-- The run of GetAllRecords in terms of what the datastore returns for the
`PageCfg` built from the query string. -/
theorem GetAllRecords_run (h : handler σ) (c : Context) (x : Exec σ) :
    h.GetAllRecords c x =
      { store := (h.ds.GetAllRecords x.store (handler.pageCfgOf c)).2
        calls := x.calls ++ [.GetAllRecords (handler.pageCfgOf c)]
        written := x.written ++
          (match (h.ds.GetAllRecords x.store (handler.pageCfgOf c)).1.2.2 with
            | some e => [⟨500, .error e.Error⟩]
            | none => []) ++
          [⟨200, .page (h.ds.GetAllRecords x.store (handler.pageCfgOf c)).1.2.1
              (h.ds.GetAllRecords x.store (handler.pageCfgOf c)).1.1⟩] } := by
  unfold handler.GetAllRecords
  simp only [Exec.invoke]
  cases (h.ds.GetAllRecords x.store (handler.pageCfgOf c)).1.2.2 <;>
    simp [Exec.JSON, StatusOK, StatusInternalServerError]

/-- A character that starts a digit string is neither sign. -/
theorem digit_not_sign (ch : Char) (d : Nat) (hd : digitVal ch = some d) :
    ch ≠ '-' ∧ ch ≠ '+' := by
  constructor
  · rintro rfl
    have hm : digitVal '-' = none := by decide
    rw [hm] at hd
    cases hd
  · rintro rfl
    have hp : digitVal '+' = none := by decide
    rw [hp] at hd
    cases hd

/-- Atoi on a string of digits only: the value, when it fits `int`. -/
theorem Atoi_unsigned (v : String) (n : Nat) (hv : parseUnsigned v.data = some n) :
    Atoi v = if n ≥ 2 ^ 63 then none else some (n : Int) := by
  unfold Atoi
  cases hdata : v.data with
  | nil => simp [hdata, parseUnsigned] at hv
  | cons ch cs =>
    rw [hdata] at hv
    have hdig : ∃ d, digitVal ch = some d := by
      simp only [parseUnsigned, parseDigits] at hv
      cases hch : digitVal ch with
      | none => simp [hch] at hv
      | some d => exact ⟨d, rfl⟩
    obtain ⟨d, hd⟩ := hdig
    obtain ⟨hm, hp⟩ := digit_not_sign ch d hd
    simp only [hm, hp, if_false, hv, intSize]

/-- The `Page` of the built `PageCfg`, by what the query string holds. -/
theorem pageCfgOf_Page (c : Context) :
    (handler.pageCfgOf c).Page =
      match c.GetQuery "page" with
      | none => 1
      | some v => (Atoi v).getD 1 := by
  have h1 : Atoi "1" = some 1 := by decide
  unfold handler.pageCfgOf Context.DefaultQuery
  cases c.GetQuery "page" with
  | none => simp only [h1]
  | some v =>
    dsimp only
    cases Atoi v <;> rfl

/-- The `Pagin` of the built `PageCfg`, by what the query string holds. -/
theorem pageCfgOf_Pagin (c : Context) :
    (handler.pageCfgOf c).Pagin =
      match c.GetQuery "pagin" with
      | none => 100
      | some v => (Atoi v).getD 30 := by
  have h100 : Atoi "100" = some 100 := by decide
  unfold handler.pageCfgOf Context.DefaultQuery
  cases c.GetQuery "pagin" with
  | none => simp only [h100]
  | some v =>
    dsimp only
    cases Atoi v <;> rfl

/-- The `Sort` of the built `PageCfg`, by what the query string holds. -/
theorem pageCfgOf_SortKey (c : Context) :
    (handler.pageCfgOf c).SortKey = (c.GetQuery "sort").getD "created_at" := by
  unfold handler.pageCfgOf Context.DefaultQuery
  cases c.GetQuery "sort" <;> rfl

/-- The digit loop over a concatenation runs over the first part, then the second. -/
theorem parseDigits_append (cs ds : List Char) (acc : Nat) :
    parseDigits (cs ++ ds) acc = (parseDigits cs acc).bind (parseDigits ds) := by
  induction cs generalizing acc with
  | nil => rfl
  | cons ch cs ih =>
    simp only [List.cons_append, parseDigits]
    cases digitVal ch with
    | none => rfl
    | some d => exact ih _

/-- The character with code `48 + k` is the digit `k`. -/
theorem digitVal_ofNat (k : Nat) (hk : k < 10) : digitVal (Char.ofNat (48 + k)) = some k := by
  interval_cases k <;> decide

/-- Every natural number is the value of some non-empty digit string. -/
theorem exists_digit_string (n : Nat) : ∃ cs : List Char, parseUnsigned cs = some n := by
  suffices hs : ∃ cs : List Char, cs ≠ [] ∧ parseDigits cs 0 = some n by
    obtain ⟨cs, hne, hcs⟩ := hs
    refine ⟨cs, ?_⟩
    cases cs with
    | nil => exact absurd rfl hne
    | cons ch cs => exact hcs
  induction n using Nat.strong_induction_on with
  | _ n ih =>
    by_cases hn : n < 10
    · refine ⟨[Char.ofNat (48 + n)], by simp, ?_⟩
      simp only [parseDigits, digitVal_ofNat n hn]
      simp
    · obtain ⟨cs, hne, hcs⟩ := ih (n / 10) (by omega)
      refine ⟨cs ++ [Char.ofNat (48 + n % 10)], by simp, ?_⟩
      rw [parseDigits_append, hcs]
      simp only [Option.bind, parseDigits, digitVal_ofNat (n % 10) (by omega)]
      congr 1
      omega

/-- Every value of a 64-bit `int` is what Atoi returns on some string. -/
theorem Atoi_complete (n : Int) (hlo : -(2 ^ 63) ≤ n) (hhi : n < 2 ^ 63) :
    ∃ v : String, Atoi v = some n := by
  by_cases hn : 0 ≤ n
  · obtain ⟨cs, hcs⟩ := exists_digit_string n.toNat
    refine ⟨String.mk cs, ?_⟩
    rw [Atoi_unsigned (String.mk cs) n.toNat hcs]
    have hlt : ¬ n.toNat ≥ 2 ^ 63 := by omega
    rw [if_neg hlt]
    congr 1
    omega
  · obtain ⟨cs, hcs⟩ := exists_digit_string (-n).toNat
    refine ⟨String.mk ('-' :: cs), ?_⟩
    have hle : ¬ (-n).toNat > 2 ^ 63 := by omega
    simp only [Atoi, hcs, intSize, if_true, if_neg hle]
    congr 1
    omega

/-! ## Theorems -/

/-- C1: AddRecord, body bound to `newr`, datastore AddRecord failing with `e`:
the run makes that one datastore call and writes exactly one response, with
status 400 when `e` is ErrInvalidRecord, 409 when it is ErrUnavailableShort and
500 for every other error, and with body `{error: e.Error()}`. -/
theorem AddRecord_error_response (h : handler σ) (c : Context) (x : Exec σ)
    (newr : Record) (r : Option Record) (e : GoError) (s' : σ)
    (hbind : c.ShouldBindJSON = .ok newr)
    (hds : h.ds.AddRecord x.store newr = ((r, some e), s')) :
    h.AddRecord c x =
      { store := s'
        calls := x.calls ++ [.AddRecord newr]
        written := x.written ++
          [⟨if e.ident = .ErrInvalidRecord then 400
            else if e.ident = .ErrUnavailableShort then 409 else 500,
            .error e.Error⟩] } := by
  unfold handler.AddRecord
  simp only [hbind, Exec.invoke, hds]
  cases hid : e.ident <;>
    simp [Exec.JSON, StatusBadRequest, StatusConflict, StatusInternalServerError]

/-- The short of the example record is taken: the second POST of the same body is
answered 409 with the unavailable-short message. -/
theorem AddRecord_error_response_witness :
    memHandler.AddRecord (plainRequest (.ok exampleRecord))
        (Exec.start oneStore) =
      { store := oneStore
        calls := [.AddRecord exampleRecord]
        written := [⟨409, .error "short is not available"⟩] } :=
  AddRecord_error_response memHandler (plainRequest (.ok exampleRecord))
    (Exec.start oneStore) exampleRecord none
    Mem.ErrUnavailableShort oneStore rfl (by decide)

/-- C2: UpdateRecord, body bound to `newr`, datastore UpdateRecord failing with
`e`: the run makes that one datastore call (with the `record_id` path parameter)
and writes exactly one response, with status 400 when `e` is ErrInvalidRecord,
409 when it is ErrUnavailableShort, 404 when it is ErrIDNotFound and 500 for
every other error, and with body `{error: e.Error()}`. -/
theorem UpdateRecord_error_response (h : handler σ) (c : Context) (x : Exec σ)
    (newr : Record) (r : Option Record) (e : GoError) (s' : σ)
    (hbind : c.ShouldBindJSON = .ok newr)
    (hds : h.ds.UpdateRecord x.store (c.Param "record_id") newr = ((r, some e), s')) :
    h.UpdateRecord c x =
      { store := s'
        calls := x.calls ++ [.UpdateRecord (c.Param "record_id") newr]
        written := x.written ++
          [⟨if e.ident = .ErrInvalidRecord then 400
            else if e.ident = .ErrUnavailableShort then 409
            else if e.ident = .ErrIDNotFound then 404 else 500,
            .error e.Error⟩] } := by
  unfold handler.UpdateRecord
  simp only [hbind, Exec.invoke, hds]
  cases hid : e.ident <;>
    simp [Exec.JSON, StatusBadRequest, StatusConflict, StatusNotFound,
      StatusInternalServerError]

/-- Updating a record id the empty store does not hold is answered 404. -/
theorem UpdateRecord_error_response_witness :
    memHandler.UpdateRecord
        { Param := fun _ => "nope", GetQuery := fun _ => none,
          ShouldBindJSON := .ok exampleRecord }
        (Exec.start ⟨[], none⟩) =
      { store := ⟨[], none⟩
        calls := [.UpdateRecord "nope" exampleRecord]
        written := [⟨404, .error "id not found"⟩] } :=
  UpdateRecord_error_response memHandler
    { Param := fun _ => "nope", GetQuery := fun _ => none,
      ShouldBindJSON := .ok exampleRecord }
    (Exec.start ⟨[], none⟩) exampleRecord none Mem.ErrIDNotFound ⟨[], none⟩ rfl (by decide)

/-- C3: when binding the JSON body fails with parse error `p`, AddRecord and
UpdateRecord each write exactly one response, 400 with body `{error: p.Error()}`,
and make no datastore call: the store and the call log are left as they were,
whatever the datastore is. -/
theorem bind_failure_response (h : handler σ) (c : Context) (x : Exec σ) (p : GoError)
    (hbind : c.ShouldBindJSON = .error p) :
    h.AddRecord c x = { x with written := x.written ++ [⟨400, .error p.Error⟩] } ∧
    h.UpdateRecord c x = { x with written := x.written ++ [⟨400, .error p.Error⟩] } := by
  constructor
  · unfold handler.AddRecord
    simp only [hbind, Exec.JSON, StatusBadRequest]
  · unfold handler.UpdateRecord
    simp only [hbind, Exec.JSON, StatusBadRequest]

/-- A body that does not parse: both handlers answer 400 with the parser's text and
leave the store and the call log alone. -/
theorem bind_failure_response_witness :
    memHandler.AddRecord (plainRequest (.error ⟨.other 7, "unexpected EOF"⟩))
        (Exec.start ⟨[], none⟩) =
      { store := ⟨[], none⟩, calls := [], written := [⟨400, .error "unexpected EOF"⟩] } ∧
    memHandler.UpdateRecord (plainRequest (.error ⟨.other 7, "unexpected EOF"⟩))
        (Exec.start ⟨[], none⟩) =
      { store := ⟨[], none⟩, calls := [], written := [⟨400, .error "unexpected EOF"⟩] } :=
  bind_failure_response memHandler (plainRequest (.error ⟨.other 7, "unexpected EOF"⟩))
    (Exec.start ⟨[], none⟩) ⟨.other 7, "unexpected EOF"⟩ rfl

/-- C4: AddRecord, body bound to `newr`, datastore AddRecord returning `r` with no
error: the run makes that one datastore call and writes exactly one response,
200 with body `r`, the record the datastore returned. -/
theorem AddRecord_success_response (h : handler σ) (c : Context) (x : Exec σ)
    (newr : Record) (r : Option Record) (s' : σ)
    (hbind : c.ShouldBindJSON = .ok newr)
    (hds : h.ds.AddRecord x.store newr = ((r, none), s')) :
    h.AddRecord c x =
      { store := s'
        calls := x.calls ++ [.AddRecord newr]
        written := x.written ++ [⟨200, .record r⟩] } := by
  unfold handler.AddRecord
  simp only [hbind, Exec.invoke, hds, Exec.JSON, StatusOK]

/-- The example POST on the empty store: 200, and the body carries the ID the store
assigned, which the bound record does not have. -/
theorem AddRecord_success_response_witness :
    memHandler.AddRecord (plainRequest (.ok exampleRecord)) (Exec.start ⟨[], none⟩) =
      { store := oneStore
        calls := [.AddRecord exampleRecord]
        written := [⟨200, .record (some storedRecord)⟩] } :=
  AddRecord_success_response memHandler (plainRequest (.ok exampleRecord))
    (Exec.start ⟨[], none⟩) exampleRecord (some storedRecord)
    oneStore rfl (by decide)

/-- C5: DeleteRecord calls the datastore with the `record_id` path parameter and
writes exactly one response: 200 with body `{id: d}` when the datastore returns
the deleted id `d` and no error; 404 with `{error: e.Error()}` when it returns
ErrIDNotFound; 500 with `{error: e.Error()}` for every other error.  Hence, when
the datastore succeeds on the first delete of an id and reports ErrIDNotFound on
the second, two runs in a row answer 200 `{id: d}` and then 404. -/
theorem DeleteRecord_responses (h : handler σ) (c : Context) (x : Exec σ) :
    (∀ (d : String) (s' : σ),
      h.ds.DeleteRecord x.store (c.Param "record_id") = ((d, none), s') →
      h.DeleteRecord c x =
        { store := s'
          calls := x.calls ++ [.DeleteRecord (c.Param "record_id")]
          written := x.written ++ [⟨200, .id d⟩] }) ∧
    (∀ (d : String) (e : GoError) (s' : σ),
      h.ds.DeleteRecord x.store (c.Param "record_id") = ((d, some e), s') →
      h.DeleteRecord c x =
        { store := s'
          calls := x.calls ++ [.DeleteRecord (c.Param "record_id")]
          written := x.written ++
            [⟨if e.ident = .ErrIDNotFound then 404 else 500, .error e.Error⟩] }) ∧
    (∀ (d d' : String) (e : GoError) (s₁ s₂ : σ),
      h.ds.DeleteRecord x.store (c.Param "record_id") = ((d, none), s₁) →
      h.ds.DeleteRecord s₁ (c.Param "record_id") = ((d', some e), s₂) →
      e.ident = .ErrIDNotFound →
      (h.DeleteRecord c (h.DeleteRecord c x)).written =
        x.written ++ [⟨200, .id d⟩, ⟨404, .error e.Error⟩]) := by
  have ok : ∀ (y : Exec σ) (d : String) (s' : σ),
      h.ds.DeleteRecord y.store (c.Param "record_id") = ((d, none), s') →
      h.DeleteRecord c y =
        { store := s'
          calls := y.calls ++ [.DeleteRecord (c.Param "record_id")]
          written := y.written ++ [⟨200, .id d⟩] } := by
    intro y d s' hds
    unfold handler.DeleteRecord
    simp only [Exec.invoke, hds, Exec.JSON, StatusOK]
  have ko : ∀ (y : Exec σ) (d : String) (e : GoError) (s' : σ),
      h.ds.DeleteRecord y.store (c.Param "record_id") = ((d, some e), s') →
      h.DeleteRecord c y =
        { store := s'
          calls := y.calls ++ [.DeleteRecord (c.Param "record_id")]
          written := y.written ++
            [⟨if e.ident = .ErrIDNotFound then 404 else 500, .error e.Error⟩] } := by
    intro y d e s' hds
    unfold handler.DeleteRecord
    simp only [Exec.invoke, hds]
    cases hid : e.ident <;> simp [Exec.JSON, StatusNotFound, StatusInternalServerError]
  refine ⟨ok x, ko x, ?_⟩
  intro d d' e s₁ s₂ h₁ h₂ hid
  rw [ok x d s₁ h₁, ko _ d' e s₂ h₂]
  simp [hid]

/-- Deleting the record `abc` of a one-record store twice: 200 `{id: "abc"}`, then
404; and a faulty store is answered 500. -/
theorem DeleteRecord_responses_witness :
    memHandler.DeleteRecord (paramRequest "abc")
        (Exec.start oneStore) =
      { store := ⟨[], none⟩
        calls := [.DeleteRecord "abc"]
        written := [⟨200, .id "abc"⟩] } ∧
    memHandler.DeleteRecord (paramRequest "abc")
        (Exec.start ⟨[], some ⟨.other 3, "connection lost"⟩⟩) =
      { store := ⟨[], some ⟨.other 3, "connection lost"⟩⟩
        calls := [.DeleteRecord "abc"]
        written := [⟨500, .error "connection lost"⟩] } ∧
    (memHandler.DeleteRecord (paramRequest "abc")
        (memHandler.DeleteRecord (paramRequest "abc")
          (Exec.start oneStore))).written =
      [⟨200, .id "abc"⟩, ⟨404, .error "id not found"⟩] :=
  ⟨(DeleteRecord_responses memHandler (paramRequest "abc")
      (Exec.start oneStore)).1
      "abc" ⟨[], none⟩ (by decide),
   (DeleteRecord_responses memHandler (paramRequest "abc")
      (Exec.start ⟨[], some ⟨.other 3, "connection lost"⟩⟩)).2.1
      "" ⟨.other 3, "connection lost"⟩ ⟨[], some ⟨.other 3, "connection lost"⟩⟩ (by decide),
   (DeleteRecord_responses memHandler (paramRequest "abc")
      (Exec.start oneStore)).2.2
      "abc" "" Mem.ErrIDNotFound ⟨[], none⟩ ⟨[], none⟩ (by decide) (by decide) rfl⟩

/-- C6: each lookup calls the datastore with its own path parameter and writes
exactly one response.  On an error `e` the status is 404 exactly when `e` is the
sentinel of that lookup (ErrIDNotFound for GetRecordByID, ErrShortNotFound for
GetRecordByShort, ErrFullNotFound for GetRecordByFull) and 500 for every other
error, the sentinels of the other two lookups included; the body is
`{error: e.Error()}`.  With no error the response is 200 with the record the
datastore returned. -/
theorem lookup_responses (h : handler σ) (c : Context) (x : Exec σ) :
    (∀ (r : Option Record) (e : GoError) (s' : σ),
      h.ds.GetRecordByID x.store (c.Param "record_id") = ((r, some e), s') →
      h.GetRecordByID c x =
        { store := s'
          calls := x.calls ++ [.GetRecordByID (c.Param "record_id")]
          written := x.written ++
            [⟨if e.ident = .ErrIDNotFound then 404 else 500, .error e.Error⟩] }) ∧
    (∀ (r : Option Record) (s' : σ),
      h.ds.GetRecordByID x.store (c.Param "record_id") = ((r, none), s') →
      h.GetRecordByID c x =
        { store := s'
          calls := x.calls ++ [.GetRecordByID (c.Param "record_id")]
          written := x.written ++ [⟨200, .record r⟩] }) ∧
    (∀ (r : Option Record) (e : GoError) (s' : σ),
      h.ds.GetRecordByShort x.store (c.Param "record_short") = ((r, some e), s') →
      h.GetRecordByShort c x =
        { store := s'
          calls := x.calls ++ [.GetRecordByShort (c.Param "record_short")]
          written := x.written ++
            [⟨if e.ident = .ErrShortNotFound then 404 else 500, .error e.Error⟩] }) ∧
    (∀ (r : Option Record) (s' : σ),
      h.ds.GetRecordByShort x.store (c.Param "record_short") = ((r, none), s') →
      h.GetRecordByShort c x =
        { store := s'
          calls := x.calls ++ [.GetRecordByShort (c.Param "record_short")]
          written := x.written ++ [⟨200, .record r⟩] }) ∧
    (∀ (r : Option Record) (e : GoError) (s' : σ),
      h.ds.GetRecordByFull x.store (c.Param "record_full") = ((r, some e), s') →
      h.GetRecordByFull c x =
        { store := s'
          calls := x.calls ++ [.GetRecordByFull (c.Param "record_full")]
          written := x.written ++
            [⟨if e.ident = .ErrFullNotFound then 404 else 500, .error e.Error⟩] }) ∧
    (∀ (r : Option Record) (s' : σ),
      h.ds.GetRecordByFull x.store (c.Param "record_full") = ((r, none), s') →
      h.GetRecordByFull c x =
        { store := s'
          calls := x.calls ++ [.GetRecordByFull (c.Param "record_full")]
          written := x.written ++ [⟨200, .record r⟩] }) := by
  refine ⟨?_, ?_, ?_, ?_, ?_, ?_⟩
  · intro r e s' hds
    unfold handler.GetRecordByID
    simp only [Exec.invoke, hds]
    cases hid : e.ident <;> simp [Exec.JSON, StatusNotFound, StatusInternalServerError]
  · intro r s' hds
    unfold handler.GetRecordByID
    simp only [Exec.invoke, hds, Exec.JSON, StatusOK]
  · intro r e s' hds
    unfold handler.GetRecordByShort
    simp only [Exec.invoke, hds]
    cases hid : e.ident <;> simp [Exec.JSON, StatusNotFound, StatusInternalServerError]
  · intro r s' hds
    unfold handler.GetRecordByShort
    simp only [Exec.invoke, hds, Exec.JSON, StatusOK]
  · intro r e s' hds
    unfold handler.GetRecordByFull
    simp only [Exec.invoke, hds]
    cases hid : e.ident <;> simp [Exec.JSON, StatusNotFound, StatusInternalServerError]
  · intro r s' hds
    unfold handler.GetRecordByFull
    simp only [Exec.invoke, hds, Exec.JSON, StatusOK]

/-- Over a one-record store the three lookups find the record (200) or miss it
(404); the short-not-found sentinel is answered 404 by GetRecordByShort alone,
GetRecordByID and GetRecordByFull answer it 500. -/
theorem lookup_responses_witness :
    (memHandler.GetRecordByID (paramRequest "abc")
        (Exec.start oneStore)).written =
      [⟨200, .record (some storedRecord)⟩] ∧
    (memHandler.GetRecordByID (paramRequest "zzz")
        (Exec.start oneStore)).written =
      [⟨404, .error "id not found"⟩] ∧
    (memHandler.GetRecordByShort (paramRequest "abc")
        (Exec.start oneStore)).written =
      [⟨200, .record (some storedRecord)⟩] ∧
    (memHandler.GetRecordByShort (paramRequest "zzz")
        (Exec.start oneStore)).written =
      [⟨404, .error "short not found"⟩] ∧
    (memHandler.GetRecordByFull (paramRequest "https://example.com")
        (Exec.start oneStore)).written =
      [⟨200, .record (some storedRecord)⟩] ∧
    (memHandler.GetRecordByFull (paramRequest "zzz")
        (Exec.start oneStore)).written =
      [⟨404, .error "full not found"⟩] ∧
    (handler.GetRecordByID ⟨confusedDs⟩ (paramRequest "abc") (Exec.start ⟨[], none⟩)).written =
      [⟨500, .error "short not found"⟩] ∧
    (handler.GetRecordByShort ⟨confusedDs⟩ (paramRequest "abc") (Exec.start ⟨[], none⟩)).written =
      [⟨404, .error "short not found"⟩] ∧
    (handler.GetRecordByFull ⟨confusedDs⟩ (paramRequest "abc") (Exec.start ⟨[], none⟩)).written =
      [⟨500, .error "short not found"⟩] :=
  ⟨congrArg Exec.written ((lookup_responses memHandler (paramRequest "abc")
      (Exec.start oneStore)).2.1
      (some storedRecord) oneStore (by decide)),
   congrArg Exec.written ((lookup_responses memHandler (paramRequest "zzz")
      (Exec.start oneStore)).1
      none Mem.ErrIDNotFound oneStore (by decide)),
   congrArg Exec.written ((lookup_responses memHandler (paramRequest "abc")
      (Exec.start oneStore)).2.2.2.1
      (some storedRecord) oneStore (by decide)),
   congrArg Exec.written ((lookup_responses memHandler (paramRequest "zzz")
      (Exec.start oneStore)).2.2.1
      none Mem.ErrShortNotFound oneStore (by decide)),
   congrArg Exec.written ((lookup_responses memHandler (paramRequest "https://example.com")
      (Exec.start oneStore)).2.2.2.2.2
      (some storedRecord) oneStore (by decide)),
   congrArg Exec.written ((lookup_responses memHandler (paramRequest "zzz")
      (Exec.start oneStore)).2.2.2.2.1
      none Mem.ErrFullNotFound oneStore (by decide)),
   congrArg Exec.written ((lookup_responses ⟨confusedDs⟩ (paramRequest "abc")
      (Exec.start ⟨[], none⟩)).1 none Mem.ErrShortNotFound ⟨[], none⟩ rfl),
   congrArg Exec.written ((lookup_responses ⟨confusedDs⟩ (paramRequest "abc")
      (Exec.start ⟨[], none⟩)).2.2.1 none Mem.ErrShortNotFound ⟨[], none⟩ rfl),
   congrArg Exec.written ((lookup_responses ⟨confusedDs⟩ (paramRequest "abc")
      (Exec.start ⟨[], none⟩)).2.2.2.2.1 none Mem.ErrShortNotFound ⟨[], none⟩ rfl)⟩

/-- C9: GetRecordsLen and GetAllRecords go on after reporting an error.  For every
error `e` the datastore returns, the run writes `(500, {error: e.Error()})` and
then the success-shaped body with status 200 (`{len: l}` for GetRecordsLen,
`{page_config, result}` for GetAllRecords, filled with what the datastore
returned along with the error): two writes, in that order.  Each of the other
six handlers appends exactly one write, whatever the request and the datastore. -/
theorem fallthrough_after_error (h : handler σ) (c : Context) (x : Exec σ) :
    (∀ (l : Int) (e : GoError) (s' : σ),
      h.ds.GetRecordsLen x.store = ((l, some e), s') →
      h.GetRecordsLen c x =
        { store := s'
          calls := x.calls ++ [.GetRecordsLen]
          written := x.written ++ [⟨500, .error e.Error⟩, ⟨200, .len l⟩] }) ∧
    (∀ (rs : List (Option Record)) (pg : PageCfg) (e : GoError) (s' : σ),
      h.ds.GetAllRecords x.store (handler.pageCfgOf c) = ((rs, pg, some e), s') →
      h.GetAllRecords c x =
        { store := s'
          calls := x.calls ++ [.GetAllRecords (handler.pageCfgOf c)]
          written := x.written ++ [⟨500, .error e.Error⟩, ⟨200, .page pg rs⟩] }) ∧
    (∃ resp, (h.AddRecord c x).written = x.written ++ [resp]) ∧
    (∃ resp, (h.UpdateRecord c x).written = x.written ++ [resp]) ∧
    (∃ resp, (h.DeleteRecord c x).written = x.written ++ [resp]) ∧
    (∃ resp, (h.GetRecordByID c x).written = x.written ++ [resp]) ∧
    (∃ resp, (h.GetRecordByShort c x).written = x.written ++ [resp]) ∧
    (∃ resp, (h.GetRecordByFull c x).written = x.written ++ [resp]) := by
  refine ⟨?_, ?_, ?_, ?_, ?_, ?_, ?_, ?_⟩
  · intro l e s' hds
    unfold handler.GetRecordsLen
    simp [Exec.invoke, hds, Exec.JSON, StatusOK, StatusInternalServerError]
  · intro rs pg e s' hds
    rw [GetAllRecords_run, hds]
    simp
  · cases hb : c.ShouldBindJSON with
    | error p => exact ⟨_, by simp only [handler.AddRecord, hb, Exec.JSON]; rfl⟩
    | ok newr =>
      rcases hds : h.ds.AddRecord x.store newr with ⟨⟨r, _ | e⟩, s'⟩
      · exact ⟨_, by simp only [handler.AddRecord, hb, Exec.invoke, hds, Exec.JSON]; rfl⟩
      · simp only [handler.AddRecord, hb, Exec.invoke, hds]
        cases e.ident <;> exact ⟨_, rfl⟩
  · cases hb : c.ShouldBindJSON with
    | error p => exact ⟨_, by simp only [handler.UpdateRecord, hb, Exec.JSON]; rfl⟩
    | ok newr =>
      rcases hds : h.ds.UpdateRecord x.store (c.Param "record_id") newr with ⟨⟨r, _ | e⟩, s'⟩
      · exact ⟨_, by simp only [handler.UpdateRecord, hb, Exec.invoke, hds, Exec.JSON]; rfl⟩
      · simp only [handler.UpdateRecord, hb, Exec.invoke, hds]
        cases e.ident <;> exact ⟨_, rfl⟩
  · rcases hds : h.ds.DeleteRecord x.store (c.Param "record_id") with ⟨⟨r, _ | e⟩, s'⟩
    · exact ⟨_, by simp only [handler.DeleteRecord, Exec.invoke, hds, Exec.JSON]; rfl⟩
    · simp only [handler.DeleteRecord, Exec.invoke, hds]
      cases e.ident <;> exact ⟨_, rfl⟩
  · rcases hds : h.ds.GetRecordByID x.store (c.Param "record_id") with ⟨⟨r, _ | e⟩, s'⟩
    · exact ⟨_, by simp only [handler.GetRecordByID, Exec.invoke, hds, Exec.JSON]; rfl⟩
    · simp only [handler.GetRecordByID, Exec.invoke, hds]
      cases e.ident <;> exact ⟨_, rfl⟩
  · rcases hds : h.ds.GetRecordByShort x.store (c.Param "record_short") with ⟨⟨r, _ | e⟩, s'⟩
    · exact ⟨_, by simp only [handler.GetRecordByShort, Exec.invoke, hds, Exec.JSON]; rfl⟩
    · simp only [handler.GetRecordByShort, Exec.invoke, hds]
      cases e.ident <;> exact ⟨_, rfl⟩
  · rcases hds : h.ds.GetRecordByFull x.store (c.Param "record_full") with ⟨⟨r, _ | e⟩, s'⟩
    · exact ⟨_, by simp only [handler.GetRecordByFull, Exec.invoke, hds, Exec.JSON]; rfl⟩
    · simp only [handler.GetRecordByFull, Exec.invoke, hds]
      cases e.ident <;> exact ⟨_, rfl⟩

/-- Over the faulty store both handlers write the 500 error and then the 200 body. -/
theorem fallthrough_after_error_witness :
    memHandler.GetRecordsLen (queryRequest none none none) (Exec.start faultyStore) =
      { store := faultyStore
        calls := [.GetRecordsLen]
        written := [⟨500, .error "connection lost"⟩, ⟨200, .len 0⟩] } ∧
    memHandler.GetAllRecords (queryRequest none none none) (Exec.start faultyStore) =
      { store := faultyStore
        calls := [.GetAllRecords ⟨1, 100, "created_at"⟩]
        written := [⟨500, .error "connection lost"⟩,
          ⟨200, .page ⟨1, 100, "created_at"⟩ []⟩] } :=
  ⟨(fallthrough_after_error memHandler (queryRequest none none none)
      (Exec.start faultyStore)).1 0 ⟨.other 3, "connection lost"⟩ faultyStore (by decide),
   (fallthrough_after_error memHandler (queryRequest none none none)
      (Exec.start faultyStore)).2.1 [] ⟨1, 100, "created_at"⟩ ⟨.other 3, "connection lost"⟩
      faultyStore (by decide)⟩

/-- C7: the `PageCfg` GetAllRecords passes to the datastore.  With no `page`,
`pagin` and `sort` query parameter it is `{Page: 1, Pagin: 100, Sort: "created_at"}`.
For every `page` value that Atoi rejects, Page is 1 and the request is still served:
the datastore is called with that `PageCfg` and, when it returns no error, the
single response is 200 with the page the datastore returned. -/
theorem GetAllRecords_page_fallback (h : handler σ) (c : Context) (x : Exec σ) :
    (c.GetQuery "page" = none → c.GetQuery "pagin" = none → c.GetQuery "sort" = none →
      (h.GetAllRecords c x).calls =
        x.calls ++ [.GetAllRecords ⟨1, 100, "created_at"⟩]) ∧
    (∀ v : String, c.GetQuery "page" = some v → Atoi v = none →
      (handler.pageCfgOf c).Page = 1 ∧
      (h.GetAllRecords c x).calls = x.calls ++ [.GetAllRecords (handler.pageCfgOf c)] ∧
      ∀ (rs : List (Option Record)) (pg : PageCfg) (s' : σ),
        h.ds.GetAllRecords x.store (handler.pageCfgOf c) = ((rs, pg, none), s') →
        (h.GetAllRecords c x).written = x.written ++ [⟨200, .page pg rs⟩]) := by
  constructor
  · intro hp hn hs
    have hcfg : handler.pageCfgOf c = ⟨1, 100, "created_at"⟩ := by
      have h1 := pageCfgOf_Page c
      have h2 := pageCfgOf_Pagin c
      have h3 := pageCfgOf_SortKey c
      rw [hp] at h1
      rw [hn] at h2
      rw [hs] at h3
      cases hc : handler.pageCfgOf c
      rw [hc] at h1 h2 h3
      simp only [Option.getD] at h1 h2 h3
      rw [h1, h2, h3]
    rw [GetAllRecords_run, hcfg]
  · intro v hv hat
    refine ⟨?_, ?_, ?_⟩
    · rw [pageCfgOf_Page, hv]
      simp only [hat, Option.getD]
    · rw [GetAllRecords_run]
    · intro rs pg s' hds
      rw [GetAllRecords_run, hds]
      simp

/-- The list request without parameters asks the store for page 1 of 100 sorted by
`created_at`; so does the request with `page=abc`, which is answered 200. -/
theorem GetAllRecords_page_fallback_witness :
    (memHandler.GetAllRecords (queryRequest none none none) (Exec.start oneStore)).calls =
      [.GetAllRecords ⟨1, 100, "created_at"⟩] ∧
    Atoi "abc" = none ∧
    (handler.pageCfgOf (queryRequest (some "abc") none none)).Page = 1 ∧
    (memHandler.GetAllRecords (queryRequest (some "abc") none none)
        (Exec.start oneStore)).calls =
      [.GetAllRecords (handler.pageCfgOf (queryRequest (some "abc") none none))] ∧
    (memHandler.GetAllRecords (queryRequest (some "abc") none none)
        (Exec.start oneStore)).written =
      [⟨200, .page ⟨1, 100, "created_at"⟩ [some storedRecord]⟩] :=
  ⟨(GetAllRecords_page_fallback memHandler (queryRequest none none none)
      (Exec.start oneStore)).1 rfl rfl rfl,
   by decide,
   ((GetAllRecords_page_fallback memHandler (queryRequest (some "abc") none none)
      (Exec.start oneStore)).2 "abc" rfl (by decide)).1,
   ((GetAllRecords_page_fallback memHandler (queryRequest (some "abc") none none)
      (Exec.start oneStore)).2 "abc" rfl (by decide)).2.1,
   ((GetAllRecords_page_fallback memHandler (queryRequest (some "abc") none none)
      (Exec.start oneStore)).2 "abc" rfl (by decide)).2.2
      [some storedRecord] ⟨1, 100, "created_at"⟩ oneStore (by decide)⟩

/-- C8: GetAllRecords has two page sizes.  Pagin is 100 when the `pagin` query
parameter is absent; it is 30, hence not 100, for every `pagin` value that is
present and that Atoi rejects.  Atoi rejects the empty string and every digit
string whose value is beyond the largest `int`. -/
theorem GetAllRecords_pagin_fallback (h : handler σ) (c : Context) (x : Exec σ) :
    (h.GetAllRecords c x).calls = x.calls ++ [.GetAllRecords (handler.pageCfgOf c)] ∧
    (c.GetQuery "pagin" = none → (handler.pageCfgOf c).Pagin = 100) ∧
    (∀ v : String, c.GetQuery "pagin" = some v → Atoi v = none →
      (handler.pageCfgOf c).Pagin = 30 ∧ (handler.pageCfgOf c).Pagin ≠ 100) ∧
    Atoi "" = none ∧
    (∀ (v : String) (n : Nat), parseUnsigned v.data = some n → 2 ^ 63 ≤ n →
      Atoi v = none) := by
  refine ⟨?_, ?_, ?_, ?_, ?_⟩
  · rw [GetAllRecords_run]
  · intro hn
    rw [pageCfgOf_Pagin, hn]
  · intro v hv hat
    have h30 : (handler.pageCfgOf c).Pagin = 30 := by
      rw [pageCfgOf_Pagin, hv]
      simp only [hat, Option.getD]
    rw [h30]
    exact ⟨rfl, by decide⟩
  · decide
  · intro v n hv hn
    rw [Atoi_unsigned v n hv, if_pos hn]

/-- No `pagin`: page size 100.  An empty `pagin=` and a twenty-digit `pagin`: page
size 30. -/
theorem GetAllRecords_pagin_fallback_witness :
    (handler.pageCfgOf (queryRequest none none none)).Pagin = 100 ∧
    (memHandler.GetAllRecords (queryRequest none (some "") none) (Exec.start oneStore)).calls =
      [.GetAllRecords ⟨1, 30, "created_at"⟩] ∧
    ((handler.pageCfgOf (queryRequest none (some "") none)).Pagin = 30 ∧
      (handler.pageCfgOf (queryRequest none (some "") none)).Pagin ≠ 100) ∧
    Atoi "99999999999999999999" = none ∧
    ((handler.pageCfgOf (queryRequest none (some "99999999999999999999") none)).Pagin = 30 ∧
      (handler.pageCfgOf (queryRequest none (some "99999999999999999999") none)).Pagin
        ≠ 100) :=
  ⟨(GetAllRecords_pagin_fallback memHandler (queryRequest none none none)
      (Exec.start oneStore)).2.1 rfl,
   (GetAllRecords_pagin_fallback memHandler (queryRequest none (some "") none)
      (Exec.start oneStore)).1,
   (GetAllRecords_pagin_fallback memHandler (queryRequest none (some "") none)
      (Exec.start oneStore)).2.2.1 "" rfl (by decide),
   (GetAllRecords_pagin_fallback memHandler (queryRequest none none none)
      (Exec.start oneStore)).2.2.2.2 "99999999999999999999" 99999999999999999999
      (by decide) (by decide),
   (GetAllRecords_pagin_fallback memHandler
      (queryRequest none (some "99999999999999999999") none)
      (Exec.start oneStore)).2.2.1 "99999999999999999999" rfl (by decide)⟩

/-- C10: GetAllRecords validates no range.  The datastore is called with the
`PageCfg` built from the query string, in which Page and Pagin are exactly the
integer Atoi reads from a `page` and a `pagin` value it accepts, and Sort is the
`sort` value as given; every 64-bit integer, zero and the negative ones included,
is read by Atoi from some string.  The last write is 200 with the `PageCfg` and
the records the datastore returned, preceded by the 500 write when the datastore
also returned an error. -/
theorem GetAllRecords_no_range_validation (h : handler σ) (c : Context) (x : Exec σ) :
    (h.GetAllRecords c x).calls = x.calls ++ [.GetAllRecords (handler.pageCfgOf c)] ∧
    (∀ (v : String) (n : Int), c.GetQuery "page" = some v → Atoi v = some n →
      (handler.pageCfgOf c).Page = n) ∧
    (∀ (v : String) (n : Int), c.GetQuery "pagin" = some v → Atoi v = some n →
      (handler.pageCfgOf c).Pagin = n) ∧
    (∀ v : String, c.GetQuery "sort" = some v → (handler.pageCfgOf c).SortKey = v) ∧
    (∀ n : Int, -(2 ^ 63) ≤ n → n < 2 ^ 63 → ∃ v : String, Atoi v = some n) ∧
    (∀ (rs : List (Option Record)) (pg : PageCfg) (err : Option GoError) (s' : σ),
      h.ds.GetAllRecords x.store (handler.pageCfgOf c) = ((rs, pg, err), s') →
      (h.GetAllRecords c x).written =
        x.written ++
          (match err with
            | some e => [⟨500, .error e.Error⟩]
            | none => []) ++
          [⟨200, .page pg rs⟩]) := by
  refine ⟨?_, ?_, ?_, ?_, Atoi_complete, ?_⟩
  · rw [GetAllRecords_run]
  · intro v n hv hat
    rw [pageCfgOf_Page, hv]
    simp only [hat, Option.getD]
  · intro v n hv hat
    rw [pageCfgOf_Pagin, hv]
    simp only [hat, Option.getD]
  · intro v hv
    rw [pageCfgOf_SortKey, hv]
    rfl
  · intro rs pg err s' hds
    rw [GetAllRecords_run, hds]

/-- The request `page=0&pagin=-5&sort=` reaches the store as `{0, -5, ""}`; the
in-memory store answers with the configuration it corrected, `{1, 30, ""}`, and
that one is the `page_config` of the response. -/
theorem GetAllRecords_no_range_validation_witness :
    (memHandler.GetAllRecords (queryRequest (some "0") (some "-5") (some ""))
        (Exec.start oneStore)).calls =
      [.GetAllRecords (handler.pageCfgOf (queryRequest (some "0") (some "-5") (some "")))] ∧
    (handler.pageCfgOf (queryRequest (some "0") (some "-5") (some ""))).Page = 0 ∧
    (handler.pageCfgOf (queryRequest (some "0") (some "-5") (some ""))).Pagin = -5 ∧
    (handler.pageCfgOf (queryRequest (some "0") (some "-5") (some ""))).SortKey = "" ∧
    (∃ v : String, Atoi v = some (-9223372036854775808)) ∧
    (memHandler.GetAllRecords (queryRequest (some "0") (some "-5") (some ""))
        (Exec.start oneStore)).written =
      [] ++ [] ++ [⟨200, .page ⟨1, 30, ""⟩ [some storedRecord]⟩] :=
  ⟨(GetAllRecords_no_range_validation memHandler
      (queryRequest (some "0") (some "-5") (some "")) (Exec.start oneStore)).1,
   (GetAllRecords_no_range_validation memHandler
      (queryRequest (some "0") (some "-5") (some "")) (Exec.start oneStore)).2.1
      "0" 0 rfl (by decide),
   (GetAllRecords_no_range_validation memHandler
      (queryRequest (some "0") (some "-5") (some "")) (Exec.start oneStore)).2.2.1
      "-5" (-5) rfl (by decide),
   (GetAllRecords_no_range_validation memHandler
      (queryRequest (some "0") (some "-5") (some "")) (Exec.start oneStore)).2.2.2.1
      "" rfl,
   (GetAllRecords_no_range_validation memHandler
      (queryRequest (some "0") (some "-5") (some "")) (Exec.start oneStore)).2.2.2.2.1
      (-9223372036854775808) (by decide) (by decide),
   (GetAllRecords_no_range_validation memHandler
      (queryRequest (some "0") (some "-5") (some "")) (Exec.start oneStore)).2.2.2.2.2
      [some storedRecord] ⟨1, 30, ""⟩ none oneStore (by decide)⟩

end UrlShortener
